import Mathlib

/-!
Verification of the Gobbledegook BLE GATT server framework against its
natural-language specification.  Each definition in this file is a shallow
embedding of a function from the C++ sources (file and function named in the
doc comment); the theorems at the bottom settle the specification claims.
-/

namespace GGK

/-! ## Update queue (src/src/Gobbledegook.cpp)

The update queue is a `std::deque<std::tuple<std::string, std::string>>`
guarded by a mutex.  Entries are pushed at the front (`push_front`) and popped
from the back (`back` / `pop_back`).  We model the deque as a list whose head
is the front of the deque, and a caller-supplied byte buffer as a list of
characters whose length is the `elementLen` capacity argument. -/

/-- An update-queue entry: `(object_path, interface_name)`, as in
`typedef std::tuple<std::string, std::string> QueueEntry`. -/
abbrev QueueEntry := String × String

/-- The string formatted by `ggkPopUpdateQueue`:
`result = std::get<0>(t) + "|" + std::get<1>(t)`. -/
def formatQueueEntry (t : QueueEntry) : String :=
  t.1 ++ "|" ++ t.2

/-- `ggkPushUpdateQueue` (Gobbledegook.cpp): constructs the entry, pushes it on
the front of the deque and returns 1. -/
def ggkPushUpdateQueue (q : List QueueEntry) (pObjectPath pInterfaceName : String) :
    List QueueEntry × Int :=
  ((pObjectPath, pInterfaceName) :: q, 1)

/-- The NUL character written as a C string terminator. -/
def nulChar : Char := Char.ofNat 0

/-- The effect of `memcpy(pElementBuffer, result.c_str(), result.length() + 1)`
on a buffer: the first `result.length + 1` bytes become the string plus its
NUL terminator, the rest of the buffer is untouched. -/
def writeCString (buf : List Char) (s : String) : List Char :=
  s.data ++ [nulChar] ++ buf.drop (s.length + 1)

/-- Result of `ggkPopUpdateQueue`: the returned int, the queue after the call
and the caller's buffer after the call. -/
structure PopResult where
  ret : Int
  queue : List QueueEntry
  buffer : List Char
deriving DecidableEq, Repr

/-- `ggkPopUpdateQueue` (Gobbledegook.cpp): returns 0 (and does nothing) on an
empty queue; formats the back entry; returns -1 (and does nothing) when the
string plus NUL terminator does not fit in the buffer; otherwise removes the
back entry unless `keep` is nonzero and copies the string into the buffer. -/
def ggkPopUpdateQueue (q : List QueueEntry) (buf : List Char) (keep : Int) : PopResult :=
  match q.getLast? with
  | none => ⟨0, q, buf⟩
  | some t =>
    let result := formatQueueEntry t
    if result.length + 1 > buf.length then ⟨-1, q, buf⟩
    else ⟨1, if keep = 0 then q.dropLast else q, writeCString buf result⟩

/-! ## Object paths (src/src/DBusObjectPath.h) and the object tree
(src/src/DBusObject.cpp, src/src/GattService.cpp, src/src/GattCharacteristic.cpp)

Paths are modelled as lists of characters. -/

/-- `DBusObjectPath::append` (DBusObjectPath.h): appending a null or an empty
string is the identity; appending to an empty path replaces it; otherwise, if
both sides carry a slash at the junction the left one is erased, and if
neither side does a slash is inserted, after which the two sides are
concatenated.  The C++ null pointer takes the same early return as the empty
string, so the empty list models both. -/
def appendPath (path rhs : List Char) : List Char :=
  if rhs = [] then path
  else if path = [] then rhs
  else
    let p1 := if path.getLast? = some '/' ∧ rhs.head? = some '/' then path.dropLast else path
    let p2 := if ¬(path.getLast? = some '/') ∧ ¬(rhs.head? = some '/') then p1 ++ ['/'] else p1
    p2 ++ rhs

/-- One trailing slash stripped; used to state the junction law of
`appendPath`. -/
def stripTrailingSlash (p : List Char) : List Char :=
  if p.getLast? = some '/' then p.dropLast else p

/-- One leading slash stripped; used to state the junction law of
`appendPath`. -/
def stripLeadingSlash (s : List Char) : List Char :=
  if s.head? = some '/' then s.tail else s

/-- The string contains no two adjacent slashes, i.e. no occurrence of the
two-slash substring. -/
def noDoubleSlash (l : List Char) : Prop :=
  List.Chain' (fun a b => ¬(a = '/' ∧ b = '/')) l

instance (l : List Char) : Decidable (noDoubleSlash l) :=
  inferInstanceAs (Decidable (List.Chain' (fun a b => ¬(a = '/' ∧ b = '/')) l))

/-- A nonempty slash-free path component. -/
def segOk (s : List Char) : Prop := s ≠ [] ∧ '/' ∉ s

instance (s : List Char) : Decidable (segOk s) :=
  inferInstanceAs (Decidable (s ≠ [] ∧ '/' ∉ s))

/-- A path segment as a string: one nonempty slash-free component, optionally
written with a single leading slash. -/
def isSegment (s : List Char) : Prop :=
  ∃ t, (s = t ∨ s = '/' :: t) ∧ t ≠ [] ∧ '/' ∉ t

/-- Slash-joined concatenation of path components. -/
def joinSegs : List (List Char) → List Char
  | [] => []
  | [s] => s
  | s :: s2 :: rest => s ++ '/' :: joinSegs (s2 :: rest)

/-- A handle on a node of the D-Bus object tree: the path nodes of its strict
ancestors (root first, as reached through the `pParent` back-links) together
with the object's own path node (`DBusObject::path`). -/
structure DBusObjectRef where
  ancestors : List (List Char)
  node : List Char
deriving DecidableEq, Repr

/-- `DBusObject::addChild`: the child object stores the new path element as
its node and points back at the owner as its parent. -/
def addChild (o : DBusObjectRef) (pathElement : List Char) : DBusObjectRef :=
  ⟨o.ancestors ++ [o.node], pathElement⟩

/-- `DBusObject::getPath`: start from the object's own path node and prepend
each ancestor's path node while walking up the parent chain, using
`DBusObjectPath::operator+` (which is `append`). -/
def getPath (o : DBusObjectRef) : List Char :=
  o.ancestors.foldr appendPath o.node

/-- The parent object reached through `DBusObject::pParent` (none for a root
object). -/
def parentOf (o : DBusObjectRef) : Option DBusObjectRef :=
  match o.ancestors.getLast? with
  | none => none
  | some n => some ⟨o.ancestors.dropLast, n⟩

/-- A GATT property value as stored by `GattInterface::addProperty`: only the
shapes used by the fluent builder are needed here. -/
inductive PropValue where
  | uuid : String → PropValue
  | path : List Char → PropValue
  | flags : List String → PropValue
deriving DecidableEq, Repr

/-- `GattService::gattCharacteristicBegin` (GattService.cpp): adds a child of
the service's object at the given path element, attaches a characteristic
interface to it, and adds the standard properties; the `Service` property is
set to `owner.getPath()`, the full path of the service's object. -/
def gattCharacteristicBegin (serviceObj : DBusObjectRef) (pathElement : List Char)
    (uuid : String) (flags : List String) :
    DBusObjectRef × List (String × PropValue) :=
  let child := addChild serviceObj pathElement
  (child, [("UUID", PropValue.uuid uuid),
           ("Service", PropValue.path (getPath serviceObj)),
           ("Flags", PropValue.flags flags)])

/-- `GattCharacteristic::gattDescriptorBegin` (GattCharacteristic.cpp): adds a
child of the characteristic's object at the given path element, attaches a
descriptor interface to it, and adds the standard properties; the
`Characteristic` property is set to `getPath()`, the full path of the
characteristic's object. -/
def gattDescriptorBegin (charObj : DBusObjectRef) (pathElement : List Char)
    (uuid : String) (flags : List String) :
    DBusObjectRef × List (String × PropValue) :=
  let child := addChild charObj pathElement
  (child, [("UUID", PropValue.uuid uuid),
           ("Characteristic", PropValue.path (getPath charObj)),
           ("Flags", PropValue.flags flags)])

/-! ## HCI adapter event thread (src/src/HciAdapter.cpp)

An HCI packet is modelled as a list of byte values.  The 6-byte header is
`(event_code : u16 LE, controller_index : u16 LE, data_size : u16 LE)`;
command-complete and command-status events add `(command_code : u16 LE,
status : u8)`, so `sizeof(CommandCompleteEvent) = 9`. -/

/-- Read a little-endian 16-bit value at the given byte offset (out-of-range
reads yield 0; the C++ would read out of bounds there, and no claim depends
on such packets). -/
def readLE16 (packet : List Nat) (off : Nat) : Nat :=
  (packet.get? off).getD 0 + 256 * ((packet.get? (off + 1)).getD 0)

/-- The mutable state touched by `HciAdapter::runEventThread`: the cached
snapshot fields (kept as raw payload bytes), the command-response conditional
value, and the active-connection counter (an `int` in the C++). -/
structure AdapterState where
  activeConnections : Int
  conditionalValue : Int
  versionInformation : List Nat
  controllerInformation : List Nat
  localName : List Nat
  adapterSettings : List Nat
deriving DecidableEq, Repr

/-- What one loop iteration does with control flow: keep looping, or return
from `runEventThread` (the thread exits). -/
inductive StepAction where
  | continueLoop
  | exitThread
deriving DecidableEq, Repr

/-- Result of processing one received packet in the event thread: the control
flow taken, the state afterwards, and whether `Logger::error` was called. -/
structure StepResult where
  action : StepAction
  state : AdapterState
  errorLogged : Bool
deriving DecidableEq, Repr

/-- Payload sizes checked by the inner `switch (event.commandCode)` of the
command-complete case: `sizeof(VersionInformation) = 3`,
`sizeof(ControllerInformation) = 280`, `sizeof(LocalName) = 260`,
`sizeof(AdapterSettings) = 4` (the seven settings commands 0x0005, 0x002A,
0x002D, 0x0009, 0x0007, 0x000D, 0x0029 share the last one).  Command codes
with no `case` label perform no size check. -/
def expectedResponseSize (commandCode : Nat) : Option Nat :=
  if commandCode = 0x0001 then some 3
  else if commandCode = 0x0004 then some 280
  else if commandCode = 0x000F then some 260
  else if commandCode = 0x0005 ∨ commandCode = 0x002A ∨ commandCode = 0x002D ∨
          commandCode = 0x0009 ∨ commandCode = 0x0007 ∨ commandCode = 0x000D ∨
          commandCode = 0x0029 then some 4
  else none

/-- The snapshot field overwritten for a recognized command-complete payload:
version information for 0x0001, controller information for 0x0004, local name
for 0x000F, adapter settings for the seven settings commands. -/
def updateSnapshot (st : AdapterState) (commandCode : Nat) (data : List Nat) : AdapterState :=
  if commandCode = 0x0001 then { st with versionInformation := data }
  else if commandCode = 0x0004 then { st with controllerInformation := data }
  else if commandCode = 0x000F then { st with localName := data }
  else { st with adapterSettings := data }

/-- One iteration of `HciAdapter::runEventThread` on a received packet:

* fewer than 2 bytes: log an error and `continue`;
* event code outside `[kMinEventType, kMaxEventType] = [0x0001, 0x0025]`:
  log an error and `continue`;
* command complete (0x0001): for recognized command codes, a payload size
  different from the expected response size logs an error and does `return`
  (the thread exits); otherwise the snapshot is updated and the command
  response is set;
* command status (0x0002): set the command response;
* device connected (0x000B): increment the connection counter;
* device disconnected (0x000C): decrement the counter only when it is
  strictly positive;
* any other in-range code: log an "unsupported event" error and `continue`. -/
def runEventStep (st : AdapterState) (packet : List Nat) : StepResult :=
  if packet.length < 2 then ⟨.continueLoop, st, true⟩
  else
    let eventCode := readLE16 packet 0
    if eventCode < 0x0001 ∨ eventCode > 0x0025 then ⟨.continueLoop, st, true⟩
    else if eventCode = 0x0001 then
      let commandCode := readLE16 packet 6
      let data := packet.drop 9
      let dataLen := packet.length - 9
      match expectedResponseSize commandCode with
      | some n =>
        if dataLen ≠ n then ⟨.exitThread, st, true⟩
        else ⟨.continueLoop,
              { updateSnapshot st commandCode data with conditionalValue := commandCode },
              false⟩
      | none => ⟨.continueLoop, { st with conditionalValue := commandCode }, false⟩
    else if eventCode = 0x0002 then
      ⟨.continueLoop, { st with conditionalValue := readLE16 packet 6 }, false⟩
    else if eventCode = 0x000B then
      ⟨.continueLoop, { st with activeConnections := st.activeConnections + 1 }, false⟩
    else if eventCode = 0x000C then
      if st.activeConnections > 0 then
        ⟨.continueLoop, { st with activeConnections := st.activeConnections - 1 }, false⟩
      else ⟨.continueLoop, st, false⟩
    else ⟨.continueLoop, st, true⟩

/-- The event loop over a list of received packets: process each packet in
turn, stopping early if an iteration returns (exits the thread). -/
def runEventLoop (st : AdapterState) : List (List Nat) → AdapterState
  | [] => st
  | p :: ps =>
    let r := runEventStep st p
    match r.action with
    | .exitThread => r.state
    | .continueLoop => runEventLoop r.state ps

/-- A concrete adapter state for witnesses and counterexamples: the freshly
constructed adapter (`activeConnections(0)`, nothing cached yet). -/
def freshAdapterState : AdapterState :=
  ⟨0, -1, [], [], [], []⟩

/-! ## HCI command code names (src/src/HciAdapter.cpp, kCommandCodeNames)

`kCommandCodeNames` is declared with `kMaxCommandCode + 1 = 0x0044` entries
and is indexed directly (`kCommandCodeNames[commandCode]`, see
`HciAdapter::waitForCommandResponse` and the `debugText` methods) with no
bounds check and no fallback string. -/

/-- The `kCommandCodeNames` table, verbatim. -/
def kCommandCodeNames : List String :=
  ["Invalid Command",                                   -- 0x0000
   "Read Version Information Command",                  -- 0x0001
   "Read Supported Commands Command",                   -- 0x0002
   "Read Controller Index List Command",                -- 0x0003
   "Read Controller Information Command",               -- 0x0004
   "Set Powered Command",                               -- 0x0005
   "Set Discoverable Command",                          -- 0x0006
   "Set Connectable Command",                           -- 0x0007
   "Set Fast Connectable Command",                      -- 0x0008
   "Set Bondable Command",                              -- 0x0009
   "Set Link Security Command",                         -- 0x000A
   "Set Secure Simple Pairing Command",                 -- 0x000B
   "Set High Speed Command",                            -- 0x000C
   "Set Low Energy Command",                            -- 0x000D
   "Set Device Class",                                  -- 0x000E
   "Set Local Name Command",                            -- 0x000F
   "Add UUID Command",                                  -- 0x0010
   "Remove UUID Command",                               -- 0x0011
   "Load Link Keys Command",                            -- 0x0012
   "Load Long Term Keys Command",                       -- 0x0013
   "Disconnect Command",                                -- 0x0014
   "Get Connections Command",                           -- 0x0015
   "PIN Code Reply Command",                            -- 0x0016
   "PIN Code Negative Reply Command",                   -- 0x0017
   "Set IO Capability Command",                         -- 0x0018
   "Pair Device Command",                               -- 0x0019
   "Cancel Pair Device Command",                        -- 0x001A
   "Unpair Device Command",                             -- 0x001B
   "User Confirmation Reply Command",                   -- 0x001C
   "User Confirmation Negative Reply Command",          -- 0x001D
   "User Passkey Reply Command",                        -- 0x001E
   "User Passkey Negative Reply Command",               -- 0x001F
   "Read Local Out Of Band Data Command",               -- 0x0020
   "Add Remote Out Of Band Data Command",               -- 0x0021
   "Remove Remote Out Of Band Data Command",            -- 0x0022
   "Start Discovery Command",                           -- 0x0023
   "Stop Discovery Command",                            -- 0x0024
   "Confirm Name Command",                              -- 0x0025
   "Block Device Command",                              -- 0x0026
   "Unblock Device Command",                            -- 0x0027
   "Set Device ID Command",                             -- 0x0028
   "Set Advertising Command",                           -- 0x0029
   "Set BR/EDR Command",                                -- 0x002A
   "Set Static Address Command",                        -- 0x002B
   "Set Scan Parameters Command",                       -- 0x002C
   "Set Secure Connections Command",                    -- 0x002D
   "Set Debug Keys Command",                            -- 0x002E
   "Set Privacy Command",                               -- 0x002F
   "Load Identity Resolving Keys Command",              -- 0x0030
   "Get Connection Information Command",                -- 0x0031
   "Get Clock Information Command",                     -- 0x0032
   "Add Device Command",                                -- 0x0033
   "Remove Device Command",                             -- 0x0034
   "Load Connection Parameters Command",                -- 0x0035
   "Read Unconfigured Controller Index List Command",   -- 0x0036
   "Read Controller Configuration Information Command", -- 0x0037
   "Set External Configuration Command",                -- 0x0038
   "Set Public Address Command",                        -- 0x0039
   "Start Service Discovery Command",                   -- 0x003A
   "Read Local Out Of Band Extended Data Command",      -- 0x003B
   "Read Extended Controller Index List Command",       -- 0x003C
   "Read Advertising Features Command",                 -- 0x003D
   "Add Advertising Command",                           -- 0x003E
   "Remove Advertising Command",                        -- 0x003F
   "Get Advertising Size Information Command",          -- 0x0040
   "Start Limited Discovery Command",                   -- 0x0041
   "Read Extended Controller Information Command",      -- 0x0042
   "Set Appearance Command"]                            -- 0x0043

/-- The name the code produces for a command code: the unchecked read
`kCommandCodeNames[commandCode]`, modelled as a partial table lookup whose
`none` result marks an out-of-bounds read (undefined behaviour in the C++,
never the string "Unknown"). -/
def commandCodeName (commandCode : Nat) : Option String :=
  kCommandCodeNames.get? commandCode

/-! ## Adapter configuration (src/src/Init.cpp `configureAdapter`,
src/src/Mgmt.cpp, src/src/HciAdapter.h)

The reconciliation compares the cached controller settings with the desired
configuration and issues management commands through `Mgmt`.  Each `Mgmt`
setter sends one HCI command and reports success or failure; a failing
command makes `configureAdapter` call `setRetry()` and return at once. -/

/-- `HciControllerSettings` bits used by `configureAdapter` (HciAdapter.h). -/
def EHciPowered : Nat := 1

/-- The connectable settings bit. -/
def EHciConnectable : Nat := 2

/-- The bondable settings bit. -/
def EHciBondable : Nat := 16

/-- The BR/EDR settings bit. -/
def EHciBasicRate_EnhancedDataRate : Nat := 128

/-- The low-energy settings bit. -/
def EHciLowEnergy : Nat := 512

/-- The advertising settings bit. -/
def EHciAdvertising : Nat := 1024

/-- The secure-connections settings bit. -/
def EHciSecureConnections : Nat := 2048

/-- `AdapterSettings::isSet`: the masked bit is nonzero. -/
def isSet (masks mask : Nat) : Bool :=
  masks &&& mask != 0

/-- The part of the cached `ControllerInformation` snapshot read by
`configureAdapter`: the current-settings mask and the two cached names. -/
structure ControllerInfoCache where
  currentSettings : Nat
  name : String
  shortName : String
deriving DecidableEq, Repr

/-- The desired configuration read from `TheServer` by `configureAdapter`:
the build-time enable flags and the advertising names. -/
structure ServerConfig where
  enableBREDR : Bool
  enableSecureConnection : Bool
  enableBondable : Bool
  enableConnectable : Bool
  enableAdvertising : Bool
  advertisingName : String
  advertisingShortName : String
deriving DecidableEq, Repr

/-- `Mgmt::truncateName`: truncate to `kMaxAdvertisingNameLength = 248`. -/
def truncateName (name : String) : String :=
  if name.length ≤ 248 then name else name.take 248

/-- `Mgmt::truncateShortName`: truncate to
`kMaxAdvertisingShortNameLength = 10`. -/
def truncateShortName (name : String) : String :=
  if name.length ≤ 10 then name else name.take 10

/-- A management command sent by one of the `Mgmt` setters used in
`configureAdapter`. -/
inductive MgmtCommand where
  | setPowered : Bool → MgmtCommand
  | setLE : Bool → MgmtCommand
  | setBredr : Bool → MgmtCommand
  | setSecureConnections : Nat → MgmtCommand
  | setBondable : Bool → MgmtCommand
  | setConnectable : Bool → MgmtCommand
  | setAdvertising : Nat → MgmtCommand
  | setName : String → String → MgmtCommand
deriving DecidableEq, Repr

/-- Outcome of `configureAdapter`: either `bAdapterConfigured` is set, or
`setRetry()` scheduled a retry. -/
inductive ConfigOutcome where
  | configured
  | retryScheduled
deriving DecidableEq, Repr

/-- `bool pwFlag = info.currentSettings.isSet(EHciPowered) == true`. -/
def pwFlag (info : ControllerInfoCache) : Bool :=
  isSet info.currentSettings EHciPowered == true

/-- `bool leFlag = info.currentSettings.isSet(EHciLowEnergy) == true`. -/
def leFlag (info : ControllerInfoCache) : Bool :=
  isSet info.currentSettings EHciLowEnergy == true

/-- `bool brFlag = isSet(EHciBasicRate_EnhancedDataRate) == getEnableBREDR()`. -/
def brFlag (server : ServerConfig) (info : ControllerInfoCache) : Bool :=
  isSet info.currentSettings EHciBasicRate_EnhancedDataRate == server.enableBREDR

/-- `bool scFlag = isSet(EHciSecureConnections) == getEnableSecureConnection()`. -/
def scFlag (server : ServerConfig) (info : ControllerInfoCache) : Bool :=
  isSet info.currentSettings EHciSecureConnections == server.enableSecureConnection

/-- `bool bnFlag = isSet(EHciBondable) == getEnableBondable()`. -/
def bnFlag (server : ServerConfig) (info : ControllerInfoCache) : Bool :=
  isSet info.currentSettings EHciBondable == server.enableBondable

/-- `bool cnFlag = isSet(EHciConnectable) == getEnableConnectable()`. -/
def cnFlag (server : ServerConfig) (info : ControllerInfoCache) : Bool :=
  isSet info.currentSettings EHciConnectable == server.enableConnectable

/-- `bool adFlag = isSet(EHciAdvertising) == getEnableAdvertising()`. -/
def adFlag (server : ServerConfig) (info : ControllerInfoCache) : Bool :=
  isSet info.currentSettings EHciAdvertising == server.enableAdvertising

/-- `bool anFlag`: each truncated advertising name is empty or matches the
cached name. -/
def anFlag (server : ServerConfig) (info : ControllerInfoCache) : Bool :=
  ((truncateName server.advertisingName).length == 0 ||
     truncateName server.advertisingName == info.name) &&
  ((truncateShortName server.advertisingShortName).length == 0 ||
     truncateShortName server.advertisingShortName == info.shortName)

/-- The entry condition of the reconciliation block:
`!pwFlag || !leFlag || !brFlag || !scFlag || !bnFlag || !cnFlag || !adFlag || !anFlag`. -/
def needsConfiguration (server : ServerConfig) (info : ControllerInfoCache) : Bool :=
  !pwFlag info || !leFlag info || !brFlag server info || !scFlag server info ||
  !bnFlag server info || !cnFlag server info || !adFlag server info || !anFlag server info

/-- The guarded command sequence of `configureAdapter`, in source order: each
entry is the guard of the enclosing `if` and the `Mgmt` command sent when the
guard holds.  The final power-on carries no guard. -/
def configureAdapterSteps (server : ServerConfig) (info : ControllerInfoCache) :
    List (Bool × MgmtCommand) :=
  [(pwFlag info, MgmtCommand.setPowered false),
   (!leFlag info, MgmtCommand.setLE true),
   (!brFlag server info, MgmtCommand.setBredr server.enableBREDR),
   (!scFlag server info,
     MgmtCommand.setSecureConnections (if server.enableSecureConnection then 1 else 0)),
   (!bnFlag server info, MgmtCommand.setBondable server.enableBondable),
   (!cnFlag server info, MgmtCommand.setConnectable server.enableConnectable),
   (!adFlag server info,
     MgmtCommand.setAdvertising (if server.enableAdvertising then 1 else 0)),
   (!anFlag server info,
     MgmtCommand.setName (truncateName server.advertisingName)
       (truncateShortName server.advertisingShortName)),
   (true, MgmtCommand.setPowered true)]

/-- Run the guarded steps in order: a step whose guard is false is skipped; a
step whose command fails (per the success oracle `ok`) stops the run with a
scheduled retry, never executing later steps. -/
def runGuardedSteps (ok : MgmtCommand → Bool) :
    List (Bool × MgmtCommand) → List MgmtCommand × ConfigOutcome
  | [] => ([], ConfigOutcome.configured)
  | (guard, cmd) :: rest =>
    if guard then
      if ok cmd then
        let r := runGuardedSteps ok rest
        (cmd :: r.1, r.2)
      else ([cmd], ConfigOutcome.retryScheduled)
    else runGuardedSteps ok rest

/-- `configureAdapter` (Init.cpp): if every flag already matches, nothing is
sent and the adapter is marked configured; otherwise the guarded steps run in
source order against the command-success oracle `ok`, returning the commands
attempted (in order) and the outcome. -/
def configureAdapter (server : ServerConfig) (info : ControllerInfoCache)
    (ok : MgmtCommand → Bool) : List MgmtCommand × ConfigOutcome :=
  if needsConfiguration server info then runGuardedSteps ok (configureAdapterSteps server info)
  else ([], ConfigOutcome.configured)

/-- The specification's nine-step sequence (spec 4.4), written from the
spec's words: 1. power off (only if currently powered); 2. enable LE (only
if off); 3... 8. each remaining setting or the names only when they differ
from the desired configuration; 9. power on.  Used as the reference for the
claim that `configureAdapter` issues exactly these commands in this order. -/
def specNineStepSequence (server : ServerConfig) (info : ControllerInfoCache) :
    List MgmtCommand :=
  (if pwFlag info then [MgmtCommand.setPowered false] else []) ++
  (if !leFlag info then [MgmtCommand.setLE true] else []) ++
  (if !brFlag server info then [MgmtCommand.setBredr server.enableBREDR] else []) ++
  (if !scFlag server info then
    [MgmtCommand.setSecureConnections (if server.enableSecureConnection then 1 else 0)]
   else []) ++
  (if !bnFlag server info then [MgmtCommand.setBondable server.enableBondable] else []) ++
  (if !cnFlag server info then [MgmtCommand.setConnectable server.enableConnectable] else []) ++
  (if !adFlag server info then
    [MgmtCommand.setAdvertising (if server.enableAdvertising then 1 else 0)]
   else []) ++
  (if !anFlag server info then
    [MgmtCommand.setName (truncateName server.advertisingName)
      (truncateShortName server.advertisingShortName)]
   else []) ++
  [MgmtCommand.setPowered true]

/-- The specification's failure semantics: run the commands in order; the
first failing command aborts with a scheduled retry and later commands never
execute. -/
def specRunCommands (ok : MgmtCommand → Bool) :
    List MgmtCommand → List MgmtCommand × ConfigOutcome
  | [] => ([], ConfigOutcome.configured)
  | c :: rest =>
    if ok c then
      let r := specRunCommands ok rest
      (c :: r.1, r.2)
    else ([c], ConfigOutcome.retryScheduled)

/-! ## Change notifications (src/src/GattCharacteristic.cpp
`sendChangeNotificationVariant`, src/src/DBusObject.cpp `emitSignal`) -/

/-- A D-Bus variant value, as far as the change-notification body needs. -/
inductive GVariant where
  | str : String → GVariant
  | dict : List (String × GVariant) → GVariant
  | strArray : List String → GVariant
  | byteArray : List Nat → GVariant
  | tuple : List GVariant → GVariant

/-- A signal sent by `g_dbus_connection_emit_signal`: originating object
path, interface name, signal name, and the parameter variant. -/
structure SignalEmission where
  objectPath : List Char
  interfaceName : String
  signalName : String
  body : GVariant

/-- `DBusObject::emitSignal` (DBusObject.cpp): emits the given signal from
this object's full path (`getPath()`) with the given interface name, signal
name and parameters. -/
def emitSignal (obj : DBusObjectRef) (interfaceName signalName : String)
    (pParameters : GVariant) : SignalEmission :=
  ⟨getPath obj, interfaceName, signalName, pParameters⟩

/-- `GattCharacteristic::sendChangeNotificationVariant`
(GattCharacteristic.cpp): builds the dictionary mapping "Value" to the new
variant, wraps it in a TWO-element tuple together with the interface name
(the C++ variant type is a pair of a string and a dict array; no
array-of-invalidated-properties member is added), and emits it as
`PropertiesChanged` on `org.freedesktop.DBus.Properties` from the owner's
path. -/
def sendChangeNotificationVariant (owner : DBusObjectRef) (pNewValue : GVariant) :
    SignalEmission :=
  emitSignal owner "org.freedesktop.DBus.Properties" "PropertiesChanged"
    (GVariant.tuple [GVariant.str "org.bluez.GattCharacteristic1",
                     GVariant.dict [("Value", pNewValue)]])

/-- The number of members of a tuple variant (none for non-tuples). -/
def tupleArity : GVariant → Option Nat
  | GVariant.tuple xs => some xs.length
  | _ => none

end GGK

namespace GGK

/-! ## Theorems for the update-queue claims -/

/-- C1: pushing `(p1,i1)` then `(p2,i2)` onto the empty queue and popping
three times with large-enough buffers and `keep = 0` yields Ok with exactly
`"p1|i1"`, then Ok with exactly `"p2|i2"`, then Empty: the queue is FIFO by
insertion time (front-insert, back-remove). -/
theorem updateQueue_fifo (p1 i1 p2 i2 : String) (buf1 buf2 buf3 : List Char)
    (h1 : (formatQueueEntry (p1, i1)).length + 1 ≤ buf1.length)
    (h2 : (formatQueueEntry (p2, i2)).length + 1 ≤ buf2.length) :
    (ggkPopUpdateQueue (ggkPushUpdateQueue (ggkPushUpdateQueue [] p1 i1).1 p2 i2).1 buf1 0)
      = ⟨1, [(p2, i2)], writeCString buf1 (p1 ++ "|" ++ i1)⟩ ∧
    (ggkPopUpdateQueue [(p2, i2)] buf2 0)
      = ⟨1, [], writeCString buf2 (p2 ++ "|" ++ i2)⟩ ∧
    (ggkPopUpdateQueue ([] : List QueueEntry) buf3 0).ret = 0 := by
  refine ⟨?_, ?_, rfl⟩
  · show ggkPopUpdateQueue [(p2, i2), (p1, i1)] buf1 0 = _
    have hlast : ([(p2, i2), (p1, i1)] : List QueueEntry).getLast? = some (p1, i1) := rfl
    simp only [ggkPopUpdateQueue, hlast]
    rw [if_neg (by omega)]
    rfl
  · have hlast : ([(p2, i2)] : List QueueEntry).getLast? = some (p2, i2) := rfl
    simp only [ggkPopUpdateQueue, hlast]
    rw [if_neg (by omega)]
    rfl

/-- Witness for `updateQueue_fifo` at concrete inputs. -/
theorem updateQueue_fifo_witness :
    (ggkPopUpdateQueue
        (ggkPushUpdateQueue (ggkPushUpdateQueue [] "p1" "i1").1 "p2" "i2").1
        (List.replicate 8 ' ') 0)
      = ⟨1, [("p2", "i2")], writeCString (List.replicate 8 ' ') ("p1" ++ "|" ++ "i1")⟩ ∧
    (ggkPopUpdateQueue [("p2", "i2")] (List.replicate 8 ' ') 0)
      = ⟨1, [], writeCString (List.replicate 8 ' ') ("p2" ++ "|" ++ "i2")⟩ ∧
    (ggkPopUpdateQueue ([] : List QueueEntry) (List.replicate 8 ' ') 0).ret = 0 :=
  updateQueue_fifo "p1" "i1" "p2" "i2" _ _ _ (by decide) (by decide)

/-- C5: on a non-empty queue, popping with a buffer strictly smaller than the
formatted back entry plus its NUL terminator returns BufferTooSmall (-1) and
leaves the queue unchanged (in particular its size is unchanged). -/
theorem updateQueue_pop_bufferTooSmall (q : List QueueEntry) (t : QueueEntry)
    (buf : List Char) (hq : q.getLast? = some t)
    (hbuf : buf.length < (formatQueueEntry t).length + 1) :
    (ggkPopUpdateQueue q buf 0).ret = -1 ∧
    (ggkPopUpdateQueue q buf 0).queue = q ∧
    (ggkPopUpdateQueue q buf 0).queue.length = q.length := by
  simp only [ggkPopUpdateQueue, hq]
  rw [if_pos (by omega)]
  exact ⟨rfl, rfl, rfl⟩

/-- Witness for `updateQueue_pop_bufferTooSmall` at a concrete queue and
buffer. -/
theorem updateQueue_pop_bufferTooSmall_witness :
    (ggkPopUpdateQueue [("/com/demo/x", "X1")] (List.replicate 3 ' ') 0).ret = -1 ∧
    (ggkPopUpdateQueue [("/com/demo/x", "X1")] (List.replicate 3 ' ') 0).queue
      = [("/com/demo/x", "X1")] ∧
    (ggkPopUpdateQueue [("/com/demo/x", "X1")] (List.replicate 3 ' ') 0).queue.length
      = [("/com/demo/x", "X1")].length :=
  updateQueue_pop_bufferTooSmall _ ("/com/demo/x", "X1") _ (by decide) (by decide)

/-- C9: `ggkPopUpdateQueue` leaves the caller's buffer completely untouched on
the Empty (0) and BufferTooSmall (-1) return paths; on the Ok (1) path the
buffer holds exactly the formatted back entry plus its NUL terminator,
followed by the untouched remainder of the original buffer. -/
theorem updateQueue_pop_frame (q : List QueueEntry) (buf : List Char) (keep : Int) :
    ((ggkPopUpdateQueue q buf keep).ret = 0 → (ggkPopUpdateQueue q buf keep).buffer = buf) ∧
    ((ggkPopUpdateQueue q buf keep).ret = -1 → (ggkPopUpdateQueue q buf keep).buffer = buf) ∧
    ((ggkPopUpdateQueue q buf keep).ret = 1 →
      ∀ t, q.getLast? = some t →
        (ggkPopUpdateQueue q buf keep).buffer
          = (formatQueueEntry t).data ++ [nulChar]
              ++ buf.drop ((formatQueueEntry t).length + 1)) := by
  rcases hq : q.getLast? with _ | t₀
  · simp only [ggkPopUpdateQueue, hq]
    simp
  · simp only [ggkPopUpdateQueue, hq]
    by_cases hlen : (formatQueueEntry t₀).length + 1 > buf.length
    · simp only [if_pos hlen]
      simp
    · simp only [if_neg hlen]
      refine ⟨by simp, by simp, fun _ t ht => ?_⟩
      obtain rfl : t₀ = t := by injection ht
      rfl

/-- Witness for `updateQueue_pop_frame`: concrete Empty, BufferTooSmall and Ok
pops, the first two leaving the buffer untouched and the third writing the
formatted entry plus NUL. -/
theorem updateQueue_pop_frame_witness :
    (ggkPopUpdateQueue ([] : List QueueEntry) ['a', 'b'] 0).buffer = ['a', 'b'] ∧
    (ggkPopUpdateQueue [("p", "i")] ['a', 'b'] 0).buffer = ['a', 'b'] ∧
    (ggkPopUpdateQueue [("p", "i")] ['a', 'b', 'c', 'd', 'e'] 0).buffer
      = (formatQueueEntry ("p", "i")).data ++ [nulChar]
          ++ (['a', 'b', 'c', 'd', 'e'] : List Char).drop
              ((formatQueueEntry ("p", "i")).length + 1) := by
  refine ⟨(updateQueue_pop_frame [] ['a', 'b'] 0).1 (by decide),
          (updateQueue_pop_frame [("p", "i")] ['a', 'b'] 0).2.1 (by decide),
          (updateQueue_pop_frame [("p", "i")] ['a', 'b', 'c', 'd', 'e'] 0).2.2 (by decide)
            ("p", "i") (by decide)⟩

/-! ## Lemmas about object-path concatenation -/

/-- The junction law of `append`: for nonempty operands the result is the left
side with one trailing slash stripped, a single slash, and the right side with
one leading slash stripped. -/
theorem appendPath_junction (p s : List Char) (hp : p ≠ []) (hs : s ≠ []) :
    appendPath p s = stripTrailingSlash p ++ '/' :: stripLeadingSlash s := by
  simp only [appendPath, stripTrailingSlash, stripLeadingSlash, if_neg hs, if_neg hp]
  by_cases hls : p.getLast? = some '/' <;> by_cases hrs : s.head? = some '/' <;>
    simp [hls, hrs]
  · rw [List.cons_head?_tail hrs]
  · conv_lhs => rw [← List.dropLast_append_getLast? '/' hls]
    simp
  · rw [List.cons_head?_tail hrs]

/-- A slash-free string trivially has no double slash. -/
theorem noDoubleSlash_of_not_mem (t : List Char) (h : '/' ∉ t) : noDoubleSlash t := by
  induction t with
  | nil => exact List.chain'_nil
  | cons a t ih =>
    rw [noDoubleSlash, List.chain'_cons']
    exact ⟨fun b _ hab => (h (by simp [hab.1])),
           ih (fun hm => h (List.mem_cons_of_mem a hm))⟩

/-- Membership of the optional last element. -/
theorem mem_of_getLast?_eq (l : List Char) (c : Char) (h : l.getLast? = some c) : c ∈ l := by
  obtain ⟨hne, rfl⟩ := List.mem_getLast?_eq_getLast (show c ∈ l.getLast? from h)
  exact List.getLast_mem hne

/-- C10 helper: appending a segment to a nonempty double-slash-free path
yields a double-slash-free path. -/
theorem noDoubleSlash_appendPath (p s : List Char) (hp : p ≠ [])
    (hnd : noDoubleSlash p) (hseg : isSegment s) : noDoubleSlash (appendPath p s) := by
  obtain ⟨t, hst, htne, htns⟩ := hseg
  have hs : s ≠ [] := by rcases hst with rfl | rfl; exact htne; simp
  have hlead : stripLeadingSlash s = t := by
    rcases hst with rfl | rfl
    · refine if_neg (fun h => htns (List.mem_of_mem_head? h))
    · simp [stripLeadingSlash]
  have hstrip : noDoubleSlash (stripTrailingSlash p) ∧
      (stripTrailingSlash p).getLast? ≠ some '/' := by
    unfold stripTrailingSlash
    by_cases hls : p.getLast? = some '/'
    · rw [if_pos hls]
      have hdecomp : p.dropLast ++ ['/'] = p := List.dropLast_append_getLast? '/' hls
      rw [noDoubleSlash] at hnd
      rw [← hdecomp, List.chain'_append] at hnd
      refine ⟨hnd.1, fun hlast => ?_⟩
      exact hnd.2.2 '/' hlast '/' rfl ⟨rfl, rfl⟩
    · rw [if_neg hls]
      exact ⟨hnd, hls⟩
  rw [appendPath_junction p s hp hs, hlead, noDoubleSlash, List.chain'_append]
  refine ⟨hstrip.1, ?_, ?_⟩
  · rw [List.chain'_cons']
    refine ⟨fun b hb hab => htns ?_, noDoubleSlash_of_not_mem t htns⟩
    rw [hab.2] at hb
    exact List.mem_of_mem_head? hb
  · intro x hx y hy hxy
    rw [hxy.1] at hx
    exact hstrip.2 hx

/-! ## Lemmas about slash-joined segment lists -/

/-- Unfolding `joinSegs` on a list with at least two components. -/
theorem joinSegs_cons₂ (s s2 : List Char) (rest : List (List Char)) :
    joinSegs (s :: s2 :: rest) = s ++ '/' :: joinSegs (s2 :: rest) := rfl

/-- Unfolding `joinSegs` on a head component followed by a nonempty list. -/
theorem joinSegs_cons_ne (m : List Char) (L : List (List Char)) (h : L ≠ []) :
    joinSegs (m :: L) = m ++ '/' :: joinSegs L := by
  cases L with
  | nil => exact absurd rfl h
  | cons a rest => rfl

/-- `joinSegs` distributes over concatenation of nonempty component lists. -/
theorem joinSegs_append (l1 l2 : List (List Char)) (h1 : l1 ≠ []) (h2 : l2 ≠ []) :
    joinSegs (l1 ++ l2) = joinSegs l1 ++ '/' :: joinSegs l2 := by
  induction l1 with
  | nil => exact absurd rfl h1
  | cons s rest ih =>
    cases rest with
    | nil =>
      cases l2 with
      | nil => exact absurd rfl h2
      | cons a as => rfl
    | cons s2 rest2 =>
      have hstep : joinSegs ((s :: s2 :: rest2) ++ l2)
          = s ++ '/' :: joinSegs ((s2 :: rest2) ++ l2) := rfl
      rw [hstep, ih (by simp) ]
      simp [joinSegs_cons₂]

/-- The optional head of a slash-join starting with a nonempty component. -/
theorem joinSegs_head? (s : List Char) (rest : List (List Char)) (hs : s ≠ []) :
    (joinSegs (s :: rest)).head? = s.head? := by
  cases rest with
  | nil => rfl
  | cons s2 rest2 =>
    rw [joinSegs_cons₂]
    cases s with
    | nil => exact absurd rfl hs
    | cons a t => rfl

/-- The optional last element of a slash-join ending with a nonempty
component. -/
theorem joinSegs_getLast? (l : List (List Char)) (s : List Char) (hs : s ≠ []) :
    (joinSegs (l ++ [s])).getLast? = s.getLast? := by
  cases l with
  | nil => rfl
  | cons s0 rest =>
    rw [joinSegs_append (s0 :: rest) [s] (by simp) (by simp)]
    have : joinSegs [s] = s := rfl
    rw [this, List.getLast?_append_cons]
    cases s with
    | nil => exact absurd rfl hs
    | cons a t => rw [List.getLast?_cons_cons]

/-- Facts about the canonical relative join of segments ending in a node:
it is nonempty and does not start with a slash. -/
theorem joinSegs_concat_facts (l : List (List Char)) (node : List Char)
    (hl : ∀ x ∈ l, segOk x) (hn : segOk node) :
    joinSegs (l ++ [node]) ≠ [] ∧ (joinSegs (l ++ [node])).head? ≠ some '/' := by
  constructor
  · intro hnil
    have h := joinSegs_getLast? l node hn.1
    rw [hnil] at h
    cases node with
    | nil => exact hn.1 rfl
    | cons a t =>
      rw [List.getLast?_eq_getLast_of_ne_nil (show (a :: t) ≠ [] by simp)] at h
      exact Option.noConfusion h
  · cases l with
    | nil =>
      have : joinSegs ([] ++ [node]) = node := rfl
      rw [this]
      intro h
      exact hn.2 (List.mem_of_mem_head? (show '/' ∈ node.head? from h))
    | cons m rest =>
      have hm : segOk m := hl m (by simp)
      rw [List.cons_append, joinSegs_head? m (rest ++ [node]) hm.1]
      intro h
      exact hm.2 (List.mem_of_mem_head? (show '/' ∈ m.head? from h))

/-- The inner fold of `getPath` over slash-free segments is their slash-join
with the node appended. -/
theorem foldr_appendPath_joinSegs (mids : List (List Char)) (node : List Char)
    (hm : ∀ x ∈ mids, segOk x) (hn : segOk node) :
    List.foldr appendPath node mids = joinSegs (mids ++ [node]) := by
  induction mids with
  | nil => rfl
  | cons m ms ih =>
    have hmok : segOk m := hm m (by simp)
    have hfacts := joinSegs_concat_facts ms node (fun x hx => hm x (by simp [hx])) hn
    rw [List.foldr_cons, ih (fun x hx => hm x (by simp [hx]))]
    rw [appendPath_junction m (joinSegs (ms ++ [node])) hmok.1 hfacts.1]
    have h1 : stripTrailingSlash m = m :=
      if_neg (fun h => hmok.2 (mem_of_getLast?_eq m '/' h))
    have h2 : stripLeadingSlash (joinSegs (ms ++ [node])) = joinSegs (ms ++ [node]) :=
      if_neg hfacts.2
    rw [h1, h2, List.cons_append, joinSegs_cons_ne m (ms ++ [node]) (by simp)]

/-- The optional last element of an absolute canonical path built from
slash-free segments is not a slash (for a nonempty segment list). -/
theorem joinSegs_getLast?_ne_slash (l : List (List Char)) (hl : ∀ x ∈ l, segOk x)
    (hne : l ≠ []) : (joinSegs l).getLast? ≠ some '/' := by
  rcases List.eq_nil_or_concat l with rfl | ⟨L, b, rfl⟩
  · exact absurd rfl hne
  · rw [List.concat_eq_append, joinSegs_getLast? L b (hl b (by simp)).1]
    intro h
    exact (hl b (by simp)).2 (mem_of_getLast?_eq b '/' h)

/-- C10 helper: the full path of an object whose root node is an absolute
canonical path and whose remaining chain nodes are slash-free segments is the
absolute canonical path over all the segments. -/
theorem getPath_canonical (segs0 mids : List (List Char)) (node : List Char)
    (h0 : ∀ x ∈ segs0, segOk x) (hm : ∀ x ∈ mids, segOk x) (hn : segOk node) :
    getPath ⟨('/' :: joinSegs segs0) :: mids, node⟩
      = '/' :: joinSegs (segs0 ++ (mids ++ [node])) := by
  unfold getPath
  rw [List.foldr_cons, foldr_appendPath_joinSegs mids node hm hn]
  have hfacts := joinSegs_concat_facts mids node hm hn
  rw [appendPath_junction _ _ (by simp) hfacts.1]
  have h2 : stripLeadingSlash (joinSegs (mids ++ [node])) = joinSegs (mids ++ [node]) :=
    if_neg hfacts.2
  rw [h2]
  cases segs0 with
  | nil =>
    have h1 : stripTrailingSlash ('/' :: joinSegs []) = [] := by
      simp [stripTrailingSlash, joinSegs]
    rw [h1]
    rfl
  | cons s0 ss0 =>
    have hne : (joinSegs (s0 :: ss0)).getLast? ≠ some '/' :=
      joinSegs_getLast?_ne_slash (s0 :: ss0) h0 (by simp)
    have hjne : joinSegs (s0 :: ss0) ≠ [] := by
      intro hnil
      have hh := joinSegs_head? s0 ss0 (h0 s0 (by simp)).1
      rw [hnil] at hh
      cases hs0 : s0 with
      | nil => exact (h0 s0 (by simp)).1 hs0
      | cons a t =>
        rw [hs0] at hh
        exact Option.noConfusion hh
    have h1 : stripTrailingSlash ('/' :: joinSegs (s0 :: ss0)) = '/' :: joinSegs (s0 :: ss0) := by
      refine if_neg ?_
      cases hj : joinSegs (s0 :: ss0) with
      | nil => exact absurd hj hjne
      | cons a t =>
        rw [List.getLast?_cons_cons]
        rw [hj] at hne
        exact hne
    rw [h1, joinSegs_append (s0 :: ss0) (mids ++ [node]) (by simp) (by simp)]
    simp

/-- C10: object-path concatenation normalizes separators: appending an empty
(or null) string is the identity; appending a nonempty string to a nonempty
path keeps exactly one slash at the junction (the junction law); appending a
segment to a double-slash-free nonempty path never produces a double slash;
and consequently the full path of every object, computed by walking its
parent chain from a root whose node is an absolute canonical path, is a
slash followed by its segments joined by single slashes. -/
theorem objectPath_append_normalizes :
    (∀ p : List Char, appendPath p [] = p) ∧
    (∀ p s : List Char, p ≠ [] → s ≠ [] →
      appendPath p s = stripTrailingSlash p ++ '/' :: stripLeadingSlash s) ∧
    (∀ p s : List Char, p ≠ [] → noDoubleSlash p → isSegment s →
      noDoubleSlash (appendPath p s)) ∧
    (∀ n : List Char, getPath ⟨[], n⟩ = n) ∧
    (∀ (segs0 mids : List (List Char)) (node : List Char),
      (∀ x ∈ segs0, segOk x) → (∀ x ∈ mids, segOk x) → segOk node →
      getPath ⟨('/' :: joinSegs segs0) :: mids, node⟩
        = '/' :: joinSegs (segs0 ++ (mids ++ [node]))) :=
  ⟨fun _ => rfl, appendPath_junction, noDoubleSlash_appendPath,
   fun _ => rfl, getPath_canonical⟩

/-- Witness for `objectPath_append_normalizes` at concrete paths: the service
root "/com/demo" with child "device" and grandchild "mfgr". -/
theorem objectPath_append_normalizes_witness :
    appendPath ['/', 'c', 'o', 'm'] [] = ['/', 'c', 'o', 'm'] ∧
    appendPath ['/', 'c', 'o', 'm'] ['/', 'd'] =
      stripTrailingSlash ['/', 'c', 'o', 'm'] ++ '/' :: stripLeadingSlash ['/', 'd'] ∧
    noDoubleSlash (appendPath ['/', 'c', 'o', 'm'] ['/', 'd']) ∧
    getPath ⟨[], ['/', 'c']⟩ = ['/', 'c'] ∧
    getPath ⟨['/' :: joinSegs [['c', 'o', 'm'], ['d', 'e', 'm', 'o']], [['d'], ['e'], ['v']].flatten],
             ['m', 'f', 'g', 'r']⟩
      = '/' :: joinSegs ([['c', 'o', 'm'], ['d', 'e', 'm', 'o']]
          ++ ([[['d'], ['e'], ['v']].flatten] ++ [['m', 'f', 'g', 'r']])) := by
  obtain ⟨h1, h2, h3, h4, h5⟩ := objectPath_append_normalizes
  refine ⟨h1 _, h2 _ _ (by decide) (by decide),
          h3 _ _ (by decide) (by simp [noDoubleSlash]) ⟨['d'], Or.inr rfl, by decide, by decide⟩,
          h4 _, h5 _ _ _ (by decide) (by decide) (by decide)⟩

/-- C8: a characteristic created by the fluent builder has its parent equal to
the service's object and its `Service` property equal to the full bus path of
that parent; a descriptor so created has its parent equal to the
characteristic's object and its `Characteristic` property equal to the full
bus path of that parent. -/
theorem builder_parent_path_properties :
    (∀ (svc : DBusObjectRef) (pe : List Char) (uuid : String) (flags : List String),
      parentOf (gattCharacteristicBegin svc pe uuid flags).1 = some svc ∧
      ((gattCharacteristicBegin svc pe uuid flags).2.lookup "Service"
        = some (PropValue.path (getPath svc)))) ∧
    (∀ (chr : DBusObjectRef) (pe : List Char) (uuid : String) (flags : List String),
      parentOf (gattDescriptorBegin chr pe uuid flags).1 = some chr ∧
      ((gattDescriptorBegin chr pe uuid flags).2.lookup "Characteristic"
        = some (PropValue.path (getPath chr)))) := by
  constructor
  · intro svc pe uuid flags
    constructor
    · show parentOf (addChild svc pe) = some svc
      simp [parentOf, addChild, List.getLast?_concat]
    · rfl
  · intro chr pe uuid flags
    constructor
    · show parentOf (addChild chr pe) = some chr
      simp [parentOf, addChild, List.getLast?_concat]
    · rfl

/-! ## Lemmas and theorems for the HCI event-thread claims -/

/-- `updateSnapshot` never touches the connection counter. -/
theorem updateSnapshot_activeConnections (st : AdapterState) (c : Nat) (d : List Nat) :
    (updateSnapshot st c d).activeConnections = st.activeConnections := by
  unfold updateSnapshot
  split_ifs <;> rfl

/-- One event-thread iteration keeps the connection counter nonnegative. -/
theorem runEventStep_counter_nonneg (st : AdapterState) (packet : List Nat)
    (h : 0 ≤ st.activeConnections) :
    0 ≤ (runEventStep st packet).state.activeConnections := by
  simp only [runEventStep]
  repeat' split
  all_goals simp [updateSnapshot_activeConnections]
  all_goals omega

/-- The whole event loop keeps the connection counter nonnegative. -/
theorem runEventLoop_counter_nonneg (st : AdapterState) (pkts : List (List Nat))
    (h : 0 ≤ st.activeConnections) :
    0 ≤ (runEventLoop st pkts).activeConnections := by
  induction pkts generalizing st with
  | nil => exact h
  | cons p ps ih =>
    unfold runEventLoop
    cases hact : (runEventStep st p).action
    · simp only [hact]
      exact ih _ (runEventStep_counter_nonneg st p h)
    · simp only [hact]
      exact runEventStep_counter_nonneg st p h

/-- C6: the active-connection counter never becomes negative along any packet
sequence; a DeviceConnected event (0x000B) increments it by one, and a
DeviceDisconnected event (0x000C) decrements it by one only when it is
strictly positive, otherwise leaving it unchanged (at zero). -/
theorem connectionCounter_clamped :
    (∀ (st : AdapterState) (pkts : List (List Nat)), 0 ≤ st.activeConnections →
      0 ≤ (runEventLoop st pkts).activeConnections) ∧
    (∀ (st : AdapterState) (packet : List Nat), 2 ≤ packet.length →
      readLE16 packet 0 = 0x000B →
      (runEventStep st packet).state.activeConnections = st.activeConnections + 1) ∧
    (∀ (st : AdapterState) (packet : List Nat), 2 ≤ packet.length →
      readLE16 packet 0 = 0x000C → 0 < st.activeConnections →
      (runEventStep st packet).state.activeConnections = st.activeConnections - 1) ∧
    (∀ (st : AdapterState) (packet : List Nat), 2 ≤ packet.length →
      readLE16 packet 0 = 0x000C → st.activeConnections ≤ 0 →
      (runEventStep st packet).state.activeConnections = st.activeConnections) := by
  refine ⟨runEventLoop_counter_nonneg, ?_, ?_, ?_⟩
  · intro st packet hlen hev
    simp only [runEventStep]
    rw [if_neg (Nat.not_lt.mpr hlen), hev]
    simp
  · intro st packet hlen hev hpos
    simp only [runEventStep]
    rw [if_neg (Nat.not_lt.mpr hlen), hev]
    simp [hpos]
  · intro st packet hlen hev hnonpos
    simp only [runEventStep]
    rw [if_neg (Nat.not_lt.mpr hlen), hev]
    simp [Int.not_lt.mpr hnonpos]

/-- Witness for `connectionCounter_clamped`: two connects and three
disconnects starting from the fresh adapter leave the counter nonnegative,
and the step equalities hold on well-formed 19-byte connect and 12-byte
disconnect packets. -/
theorem connectionCounter_clamped_witness :
    0 ≤ (runEventLoop freshAdapterState
          [[0x0B, 0] ++ List.replicate 17 0, [0x0C, 0] ++ List.replicate 10 0,
           [0x0C, 0] ++ List.replicate 10 0]).activeConnections ∧
    (runEventStep freshAdapterState
        ([0x0B, 0] ++ List.replicate 17 0)).state.activeConnections
      = freshAdapterState.activeConnections + 1 ∧
    (runEventStep { freshAdapterState with activeConnections := 1 }
        ([0x0C, 0] ++ List.replicate 10 0)).state.activeConnections
      = ({ freshAdapterState with activeConnections := 1 } : AdapterState).activeConnections - 1 ∧
    (runEventStep freshAdapterState
        ([0x0C, 0] ++ List.replicate 10 0)).state.activeConnections
      = freshAdapterState.activeConnections := by
  obtain ⟨h1, h2, h3, h4⟩ := connectionCounter_clamped
  exact ⟨h1 _ _ (by decide), h2 _ _ (by decide) (by decide),
         h3 _ _ (by decide) (by decide) (by decide),
         h4 _ _ (by decide) (by decide) (by decide)⟩

/-- C3 counterexample: a command-complete event for ReadVersionInformation
(code 0x0001) whose payload size (0 bytes) does not match the expected
response size (3 bytes) is a protocol-decode failure, and processing it makes
`runEventThread` do `return`: the thread exits instead of continuing the
loop, refuting the claim that every decode failure leaves the loop running. -/
theorem hciDecodeError_sizeMismatch_exits :
    expectedResponseSize (readLE16 [1, 0, 0, 0, 0, 0, 1, 0, 0] 6) = some 3 ∧
    ([1, 0, 0, 0, 0, 0, 1, 0, 0] : List Nat).length - 9 ≠ 3 ∧
    (runEventStep freshAdapterState [1, 0, 0, 0, 0, 0, 1, 0, 0]).errorLogged = true ∧
    (runEventStep freshAdapterState [1, 0, 0, 0, 0, 0, 1, 0, 0]).action
      ≠ StepAction.continueLoop := by
  refine ⟨rfl, by decide, rfl, ?_⟩
  intro h
  exact StepAction.noConfusion ((rfl : (runEventStep freshAdapterState
    [1, 0, 0, 0, 0, 0, 1, 0, 0]).action = StepAction.exitThread).symm.trans h)

/-- C3 (amended): events too short to carry an event code and events whose
event code is out of range are dropped with an error logged and the loop
continues with unchanged state; but a command-complete event whose payload
size does not match the expected response size of a recognized command logs
an error and exits the thread. -/
theorem hciDecodeError_handling (st : AdapterState) (packet : List Nat) :
    (packet.length < 2 →
      runEventStep st packet = ⟨StepAction.continueLoop, st, true⟩) ∧
    (2 ≤ packet.length → (readLE16 packet 0 = 0 ∨ readLE16 packet 0 > 0x0025) →
      runEventStep st packet = ⟨StepAction.continueLoop, st, true⟩) ∧
    (2 ≤ packet.length → readLE16 packet 0 = 0x0001 →
      ∀ n, expectedResponseSize (readLE16 packet 6) = some n →
        packet.length - 9 ≠ n →
        runEventStep st packet = ⟨StepAction.exitThread, st, true⟩) := by
  refine ⟨?_, ?_, ?_⟩
  · intro h
    simp [runEventStep, h]
  · intro hlen hout
    simp only [runEventStep]
    rw [if_neg (Nat.not_lt.mpr hlen),
        if_pos (show readLE16 packet 0 < 0x0001 ∨ readLE16 packet 0 > 0x0025 by omega)]
  · intro hlen hev n hexp hneq
    simp only [runEventStep]
    rw [if_neg (Nat.not_lt.mpr hlen), hev]
    simp [hexp, hneq]

/-- Witness for `hciDecodeError_handling`: a 1-byte packet and an event code
0x0026 packet continue the loop with an error; a truncated ReadControllerInfo
command-complete packet exits the thread. -/
theorem hciDecodeError_handling_witness :
    runEventStep freshAdapterState [5]
      = ⟨StepAction.continueLoop, freshAdapterState, true⟩ ∧
    runEventStep freshAdapterState [0x26, 0, 0, 0, 0, 0]
      = ⟨StepAction.continueLoop, freshAdapterState, true⟩ ∧
    runEventStep freshAdapterState [1, 0, 0, 0, 0, 0, 4, 0, 0]
      = ⟨StepAction.exitThread, freshAdapterState, true⟩ := by
  refine ⟨(hciDecodeError_handling freshAdapterState [5]).1 (by decide),
          (hciDecodeError_handling freshAdapterState [0x26, 0, 0, 0, 0, 0]).2.1
            (by decide) (by decide),
          (hciDecodeError_handling freshAdapterState [1, 0, 0, 0, 0, 0, 4, 0, 0]).2.2
            (by decide) (by decide) 280 (by decide) (by decide)⟩

/-! ## Theorems for the command-code-name claim -/

/-- C7 counterexample: for the out-of-range command code 0x0044 the code's
rendering is an unchecked read past the end of `kCommandCodeNames` (no table
entry), not the literal string "Unknown". -/
theorem commandCodeName_no_unknown_fallback :
    commandCodeName 0x0044 = none ∧ commandCodeName 0x0044 ≠ some "Unknown" := by
  have h : commandCodeName 0x0044 = none := rfl
  exact ⟨h, fun hc => Option.noConfusion (h.symm.trans hc)⟩

/-- C7 (amended): the table holds exactly the 0x0044 entries 0x0000..0x0043;
every code in [0x0001, 0x0043] renders to its known command name from the
table (witnessed at both range ends), while codes at 0x0044 and beyond have
no table entry at all: the C++ reads out of bounds there and there is no
"Unknown" fallback. -/
theorem commandCodeName_table (c : Nat) :
    kCommandCodeNames.length = 0x0044 ∧
    (0x0001 ≤ c → c ≤ 0x0043 → (commandCodeName c).isSome = true) ∧
    (0x0044 ≤ c → commandCodeName c = none) ∧
    commandCodeName 0x0001 = some "Read Version Information Command" ∧
    commandCodeName 0x0043 = some "Set Appearance Command" := by
  have hlen : kCommandCodeNames.length = 0x0044 := rfl
  refine ⟨hlen, ?_, ?_, rfl, rfl⟩
  · intro h1 h2
    rw [Option.isSome_iff_ne_none]
    intro hnone
    rw [commandCodeName, List.get?_eq_none, hlen] at hnone
    omega
  · intro h
    rw [commandCodeName, List.get?_eq_none, hlen]
    exact h

/-- Witness for `commandCodeName_table`: code 0x0005 is in range and has a
name; code 0x0100 is out of range and has no table entry. -/
theorem commandCodeName_table_witness :
    (commandCodeName 0x0005).isSome = true ∧ commandCodeName 0x0100 = none :=
  ⟨(commandCodeName_table 0x0005).2.1 (by decide) (by decide),
   (commandCodeName_table 0x0100).2.2.1 (by decide)⟩

/-! ## Lemmas and theorems for the adapter-reconciliation claim -/

/-- Filtering one guarded step. -/
theorem filterMap_guard_cons (g : Bool) (c : MgmtCommand) (rest : List (Bool × MgmtCommand)) :
    List.filterMap (fun p : Bool × MgmtCommand => if p.1 then some p.2 else none)
        ((g, c) :: rest)
      = (if g then [c] else []) ++
        List.filterMap (fun p : Bool × MgmtCommand => if p.1 then some p.2 else none) rest := by
  cases g <;> simp

/-- Running guarded steps is running the guard-filtered command list. -/
theorem runGuardedSteps_eq_filter (ok : MgmtCommand → Bool)
    (steps : List (Bool × MgmtCommand)) :
    runGuardedSteps ok steps
      = specRunCommands ok
          (steps.filterMap (fun p => if p.1 then some p.2 else none)) := by
  induction steps with
  | nil => rfl
  | cons p rest ih =>
    obtain ⟨g, c⟩ := p
    cases g
    · simpa [runGuardedSteps, filterMap_guard_cons] using ih
    · simp [runGuardedSteps, filterMap_guard_cons, specRunCommands, ih]

/-- The guard-filtered source steps are exactly the spec's nine-step
sequence. -/
theorem configureAdapterSteps_filter_eq_spec (server : ServerConfig)
    (info : ControllerInfoCache) :
    (configureAdapterSteps server info).filterMap
        (fun p => if p.1 then some p.2 else none)
      = specNineStepSequence server info := by
  simp only [configureAdapterSteps, filterMap_guard_cons, specNineStepSequence,
    List.filterMap_nil, List.append_nil, List.append_assoc]
  simp

/-- Running commands that all succeed executes all of them in order and ends
configured. -/
theorem specRunCommands_all_ok (ok : MgmtCommand → Bool) (l : List MgmtCommand)
    (h : ∀ c ∈ l, ok c = true) :
    specRunCommands ok l = (l, ConfigOutcome.configured) := by
  induction l with
  | nil => rfl
  | cons c rest ih =>
    simp [specRunCommands, h c (by simp), ih (fun c' hc' => h c' (by simp [hc']))]

/-- A failing command stops the run right after itself with a retry. -/
theorem specRunCommands_fail (ok : MgmtCommand → Bool) (l1 : List MgmtCommand)
    (c : MgmtCommand) (l2 : List MgmtCommand)
    (h1 : ∀ c' ∈ l1, ok c' = true) (hc : ok c = false) :
    specRunCommands ok (l1 ++ c :: l2) = (l1 ++ [c], ConfigOutcome.retryScheduled) := by
  induction l1 with
  | nil => simp [specRunCommands, hc]
  | cons a rest ih =>
    simp [specRunCommands, h1 a (by simp), ih (fun c' hc' => h1 c' (by simp [hc']))]

/-- C2: whenever the cached settings or names differ from the desired
configuration, `configureAdapter` attempts exactly the spec's nine-step
sequence (power off if powered, enable LE if off, then BR/EDR, secure
connections, bondable, connectable, advertising, names — each only when it
differs — and finally power on) in that order; when nothing differs, nothing
is sent; when every attempted command succeeds the full filtered sequence is
sent and the adapter is configured; and a failure of any single command
aborts right after that command with a scheduled retry, never executing the
later steps. -/
theorem configureAdapter_nine_step_sequence (server : ServerConfig)
    (info : ControllerInfoCache) (ok : MgmtCommand → Bool) :
    (needsConfiguration server info = false →
      configureAdapter server info ok = ([], ConfigOutcome.configured)) ∧
    (needsConfiguration server info = true →
      configureAdapter server info ok
        = specRunCommands ok (specNineStepSequence server info)) ∧
    (needsConfiguration server info = true →
      (∀ c ∈ specNineStepSequence server info, ok c = true) →
      configureAdapter server info ok
        = (specNineStepSequence server info, ConfigOutcome.configured)) ∧
    (∀ (l1 : List MgmtCommand) (c : MgmtCommand) (l2 : List MgmtCommand),
      needsConfiguration server info = true →
      specNineStepSequence server info = l1 ++ c :: l2 →
      (∀ c' ∈ l1, ok c' = true) → ok c = false →
      configureAdapter server info ok = (l1 ++ [c], ConfigOutcome.retryScheduled)) := by
  have hkey : needsConfiguration server info = true →
      configureAdapter server info ok
        = specRunCommands ok (specNineStepSequence server info) := by
    intro h
    rw [configureAdapter, if_pos h, runGuardedSteps_eq_filter,
        configureAdapterSteps_filter_eq_spec]
  refine ⟨?_, hkey, ?_, ?_⟩
  · intro h
    rw [configureAdapter, if_neg (by simp [h])]
  · intro h hok
    rw [hkey h, specRunCommands_all_ok ok _ hok]
  · intro l1 c l2 h hsplit h1 hc
    rw [hkey h, hsplit, specRunCommands_fail ok l1 c l2 h1 hc]

/-- Witness for `configureAdapter_nine_step_sequence` on a clean controller
(all bits off, empty names) with desired bondable, connectable, advertising
and name "demo": with all commands succeeding the full filtered sequence is
issued in order ending configured; with set-advertising failing, the run
stops right after it with a retry. -/
theorem configureAdapter_nine_step_sequence_witness :
    configureAdapter
        ⟨false, false, true, true, true, "demo", "demo"⟩ ⟨0, "", ""⟩ (fun _ => true)
      = ([MgmtCommand.setLE true, MgmtCommand.setBondable true,
          MgmtCommand.setConnectable true, MgmtCommand.setAdvertising 1,
          MgmtCommand.setName "demo" "demo", MgmtCommand.setPowered true],
         ConfigOutcome.configured) ∧
    configureAdapter
        ⟨false, false, true, true, true, "demo", "demo"⟩ ⟨0, "", ""⟩
        (fun c => decide (c ≠ MgmtCommand.setAdvertising 1))
      = ([MgmtCommand.setLE true, MgmtCommand.setBondable true,
          MgmtCommand.setConnectable true, MgmtCommand.setAdvertising 1],
         ConfigOutcome.retryScheduled) := by
  constructor
  · have h := (configureAdapter_nine_step_sequence
      ⟨false, false, true, true, true, "demo", "demo"⟩ ⟨0, "", ""⟩ (fun _ => true)).2.2.1
      (by decide) (fun c _ => rfl)
    rw [h]
    decide
  · exact (configureAdapter_nine_step_sequence
      ⟨false, false, true, true, true, "demo", "demo"⟩ ⟨0, "", ""⟩
      (fun c => decide (c ≠ MgmtCommand.setAdvertising 1))).2.2.2
      [MgmtCommand.setLE true, MgmtCommand.setBondable true,
       MgmtCommand.setConnectable true] (MgmtCommand.setAdvertising 1)
      [MgmtCommand.setName "demo" "demo", MgmtCommand.setPowered true]
      (by decide) (by decide) (by decide) (by decide)

/-! ## Theorem for the change-notification claim -/

/-- C4 (code evidence): the `PropertiesChanged` body built by
`sendChangeNotificationVariant` is the TWO-element tuple of the interface
name and the Value dictionary — there is no third member, so it is not the
standard three-element body with an empty invalidated-properties array. -/
theorem changeNotification_body_two_members :
    (sendChangeNotificationVariant ⟨[], ['/']⟩ (GVariant.byteArray [97])).interfaceName
      = "org.freedesktop.DBus.Properties" ∧
    (sendChangeNotificationVariant ⟨[], ['/']⟩ (GVariant.byteArray [97])).signalName
      = "PropertiesChanged" ∧
    (sendChangeNotificationVariant ⟨[], ['/']⟩ (GVariant.byteArray [97])).body
      = GVariant.tuple [GVariant.str "org.bluez.GattCharacteristic1",
                        GVariant.dict [("Value", GVariant.byteArray [97])]] ∧
    tupleArity (sendChangeNotificationVariant ⟨[], ['/']⟩ (GVariant.byteArray [97])).body
      = some 2 :=
  ⟨rfl, rfl, rfl, rfl⟩

end GGK
